import Mathlib

/-!
Verification of the static report data model and derived-view computations of
the Traild customer-onboarding dashboard (`src/onboarding_dashboard.py`).

The module-level pandas tables become Lean structures over exact numbers
(`ℤ` for counts, `ℚ` for monetary/average values; Python floats in the source
are decimal literals, represented exactly).  Each chart-building function's
effect on the module state is embedded as a function `Dataset → Dataset`,
and its data transformation (sorting, share percentages, the hard-coded
treemap arrays) as explicit list computations.
-/

/-- Error taxonomy of the report data model (spec section 7). -/
inductive DataError : Type
  | dataIntegrityError : DataError
  | hierarchyError : DataError
  | divideByZeroError : DataError
deriving DecidableEq, Repr

/-- KPI table (`kpi_data`, lines 32-39). -/
structure KpiData : Type where
  avgOnboarding : ℤ
  medianOnboarding : ℤ
  pctUnder20 : ℤ
  pct20to40 : ℤ
  atRiskCustomers : ℤ
  atRiskAcv : ℚ
deriving DecidableEq, Repr

/-- The concrete KPI values (`kpi_data`). -/
def kpi_data : KpiData :=
  { avgOnboarding := 73
    medianOnboarding := 49
    pctUnder20 := 29
    pct20to40 := 11
    atRiskCustomers := 72
    atRiskAcv := 1.3 }

/-- One row of the segmentation table (`segmentation_data`): live status,
status, category label, customer count `N`, and ACV in millions. -/
structure SegmentRow : Type where
  liveStatus : String
  status : String
  category : String
  n : ℤ
  acv : ℚ
deriving DecidableEq, Repr

/-- The concrete segmentation table (`segmentation_data`, lines 42-50). -/
def segmentation_data : List SegmentRow :=
  [ { liveStatus := "Live", status := "Active", category := "Live-Active", n := 96, acv := 1.7 }
  , { liveStatus := "Live", status := "Churned", category := "Live-Churned", n := 1, acv := 0.02 }
  , { liveStatus := "Not Live", status := "Active", category := "Never Onboarded", n := 2, acv := 0.02 }
  , { liveStatus := "Not Live", status := "Active", category := "On Hold", n := 90, acv := 2.3 }
  , { liveStatus := "Not Live", status := "Active", category := "At Risk", n := 72, acv := 1.3 }
  , { liveStatus := "Not Live", status := "Active", category := "Low Risk", n := 97, acv := 3.3 }
  , { liveStatus := "Not Live", status := "Churned", category := "Not Live-Churned", n := 11, acv := 0.3 } ]

/-- One row of the ERP table (`erp_data`). -/
structure ErpRow : Type where
  erp : String
  n : ℤ
  average : ℚ
  median : ℚ
deriving DecidableEq, Repr

/-- The concrete ERP table (`erp_data`, lines 53-59). -/
def erp_data : List ErpRow :=
  [ { erp := "mb (MYOB)", n := 45, average := 79, median := 43 }
  , { erp := "so (Syspro)", n := 23, average := 96, median := 75 }
  , { erp := "at (Acumatica)", n := 11, average := 19, median := 10 }
  , { erp := "xo (Xero)", n := 6, average := 29, median := 29 }
  , { erp := "eo", n := 5, average := 60, median := 48 } ]

/-- One row of the cohort trend table (`cohort_data`). -/
structure CohortRow : Type where
  month : String
  avgDays : ℤ
deriving DecidableEq, Repr

/-- The concrete cohort table (`cohort_data`, lines 62-67). -/
def cohort_data : List CohortRow :=
  [ { month := "Oct-24", avgDays := 65 }
  , { month := "Nov-24", avgDays := 68 }
  , { month := "Dec-24", avgDays := 74 }
  , { month := "Jan-25", avgDays := 88 } ]

/-- One row of the distribution table (`distribution_data`): histogram bin,
count, and pre-computed percentage. -/
structure DistRow : Type where
  bin : String
  count : ℤ
  pct : ℤ
deriving DecidableEq, Repr

/-- The concrete distribution table (`distribution_data`, lines 70-77). -/
def distribution_data : List DistRow :=
  [ { bin := "0-20", count := 28, pct := 29 }
  , { bin := "20-40", count := 10, pct := 11 }
  , { bin := "40-60", count := 15, pct := 16 }
  , { bin := "60-80", count := 8, pct := 8 }
  , { bin := "80-100", count := 6, pct := 6 }
  , { bin := "100+", count := 28, pct := 29 } ]

/-- One row of the ACV-band table (`acv_onboarding_data`).  The `pct` field
models the `Pct` column: `none` in the literal table, set by
`create_acv_chart` (line 293). -/
structure AcvRow : Type where
  acvBand : String
  avgDays : ℤ
  n : ℤ
  avgAcv : ℤ
  pct : Option ℤ
deriving DecidableEq, Repr

/-- The concrete ACV-band table (`acv_onboarding_data`, lines 80-86); no
`Pct` column is present in the literal data. -/
def acv_onboarding_data : List AcvRow :=
  [ { acvBand := "<$5K", avgDays := 42, n := 11, avgAcv := 3864, pct := none }
  , { acvBand := "$5K-$10K", avgDays := 62, n := 21, avgAcv := 6911, pct := none }
  , { acvBand := "$10K-$25K", avgDays := 68, n := 44, avgAcv := 15294, pct := none }
  , { acvBand := "$25K-$50K", avgDays := 115, n := 14, avgAcv := 36667, pct := none }
  , { acvBand := "$50K+", avgDays := 116, n := 5, avgAcv := 69058, pct := none } ]

/-- One row of the non-live category table (`non_live_data`). -/
structure NonLiveRow : Type where
  category : String
  acv : ℚ
  n : ℤ
deriving DecidableEq, Repr

/-- The concrete non-live table (`non_live_data`, lines 89-94). -/
def non_live_data : List NonLiveRow :=
  [ { category := "Never Onboarded", acv := 0.023, n := 2 }
  , { category := "On Hold", acv := 2.3, n := 90 }
  , { category := "At Risk", acv := 1.3, n := 72 }
  , { category := "Low Risk", acv := 3.3, n := 97 } ]

/-- One row of the at-risk breakdown table (`at_risk_breakdown`). -/
structure AtRiskRow : Type where
  reason : String
  count : ℤ
deriving DecidableEq, Repr

/-- The concrete at-risk breakdown table (`at_risk_breakdown`, lines 97-100). -/
def at_risk_breakdown : List AtRiskRow :=
  [ { reason := "No incoming comms", count := 54 }
  , { reason := "Low response / other risk", count := 18 } ]

/-- The module-level state: the eight tables defined at the top of
`onboarding_dashboard.py`. -/
structure Dataset : Type where
  kpi : KpiData
  segmentation : List SegmentRow
  erp : List ErpRow
  cohort : List CohortRow
  distribution : List DistRow
  acvOnboarding : List AcvRow
  nonLive : List NonLiveRow
  atRisk : List AtRiskRow
deriving DecidableEq, Repr

/-- The dataset as loaded at module import time. -/
def initialDataset : Dataset :=
  { kpi := kpi_data
    segmentation := segmentation_data
    erp := erp_data
    cohort := cohort_data
    distribution := distribution_data
    acvOnboarding := acv_onboarding_data
    nonLive := non_live_data
    atRisk := at_risk_breakdown }

/-- Round-half-to-even on `ℚ`, the rounding performed by
`Series.round(0)` in `create_acv_chart` (line 293): ties between two
integers go to the even one. -/
def roundHalfEven (q : ℚ) : ℤ :=
  if q - ⌊q⌋ < 1/2 then ⌊q⌋
  else if 1/2 < q - ⌊q⌋ then ⌊q⌋ + 1
  else if ⌊q⌋ % 2 = 0 then ⌊q⌋ else ⌊q⌋ + 1

/-- Modelled from the spec: `computeSharePercent` is not a standalone
function in src; its share formula is the one of `create_acv_chart`
(lines 292-293: divide each count by the total, times 100, round) and the
zero-total `DivideByZeroError` guard comes from the spec's operation
contract (src never divides by zero because its table is fixed). -/
def computeSharePercent {α : Type} (countf : α → ℤ) (rows : List α) :
    Except DataError (List (α × ℤ)) :=
  if (rows.map countf).sum = 0 then Except.error DataError.divideByZeroError
  else
    Except.ok (rows.map (fun r =>
      (r, roundHalfEven (100 * (countf r : ℚ) / (((rows.map countf).sum : ℤ) : ℚ)))))

/-- The `total_customers` sum `create_acv_chart` computes at line 292. -/
def acvTotal (t : List AcvRow) : ℤ := (t.map AcvRow.n).sum

/-- The transformation `create_acv_chart` (lines 292-293) applies to the
module-level ACV-band table: it computes `total_customers` as the sum of the
`N` column and writes a `Pct` column with the rounded share of each row. -/
def create_acv_chart_table (t : List AcvRow) : List AcvRow :=
  t.map (fun r => { r with pct := some (roundHalfEven (100 * (r.n : ℚ) / (acvTotal t : ℚ))) })

/-- Effect of calling `create_acv_chart` on the module state: the global
`acv_onboarding_data` gains/overwrites its `Pct` column; no other table is
touched. -/
def create_acv_chart_state (d : Dataset) : Dataset :=
  { d with acvOnboarding := create_acv_chart_table d.acvOnboarding }

/-- Effect of `create_kpi_cards` on the module state: it only reads
(in fact hard-codes) its figure data, writing no table. -/
def create_kpi_cards_state (d : Dataset) : Dataset := d

/-- Effect of `create_segmentation_chart` on the module state: it builds
the treemap from hard-coded parallel arrays and writes no table. -/
def create_segmentation_chart_state (d : Dataset) : Dataset := d

/-- Effect of `create_erp_chart` on the module state: `iloc[::-1]` and
`reset_index(drop=True)` produce a fresh local frame; the global table is
not written. -/
def create_erp_chart_state (d : Dataset) : Dataset := d

/-- Effect of `create_cohort_trend` on the module state: read-only. -/
def create_cohort_trend_state (d : Dataset) : Dataset := d

/-- Effect of `create_distribution_chart` on the module state: read-only. -/
def create_distribution_chart_state (d : Dataset) : Dataset := d

/-- Effect of `create_non_live_chart` on the module state: `sort_values`
returns a sorted copy bound to a local name; the global table is not
written. -/
def create_non_live_chart_state (d : Dataset) : Dataset := d

/-- Effect of `create_at_risk_breakdown` on the module state: its figure
data is hard-coded; read-only. -/
def create_at_risk_breakdown_state (d : Dataset) : Dataset := d

/-- Modelled from the spec: `rankDescending(rows, field)` — a stable sort by
a numeric field, descending, preserving original relative order for ties.
No descending sort exists in src (`create_erp_chart` merely reverses the
pre-ordered table; `create_non_live_chart` sorts ascending). -/
def rankDescending {α : Type} (keyf : α → ℚ) (rows : List α) : List α :=
  List.insertionSort (fun a b => keyf b ≤ keyf a) rows

/-- The ascending-by-ACV ordering `create_non_live_chart` feeds to its bar
trace (line 332, `sort_values('ACV', ascending=True)`), as a stable sort on
the non-live table. -/
def create_non_live_chart_rows (d : Dataset) : List NonLiveRow :=
  List.insertionSort (fun a b => a.acv ≤ b.acv) d.nonLive

/-- Labels of the treemap hard-coded in `create_segmentation_chart`
(lines 145-151). -/
def treemapLabels : List String :=
  [ "All Customers"
  , "Live (N=97, $1.7M)", "Not Live (N=272, $7.3M)"
  , "Live-Active (N=96)", "Live-Churned (N=1)"
  , "Not Live-Active (N=261)", "Not Live-Churned (N=11)"
  , "Never Onboarded (N=2)", "On Hold (N=90)", "At Risk (N=72)", "Low Risk (N=97)" ]

/-- Parents of the treemap, parallel to `treemapLabels` (lines 152-158). -/
def treemapParents : List String :=
  [ ""
  , "All Customers", "All Customers"
  , "Live (N=97, $1.7M)", "Live (N=97, $1.7M)"
  , "Not Live (N=272, $7.3M)", "Not Live (N=272, $7.3M)"
  , "Not Live-Active (N=261)", "Not Live-Active (N=261)", "Not Live-Active (N=261)", "Not Live-Active (N=261)" ]

/-- ACV values of the treemap, parallel to `treemapLabels` (line 159). -/
def treemapValues : List ℚ :=
  [9.0, 1.72, 7.28, 1.7, 0.02, 6.98, 0.3, 0.02, 2.3, 1.3, 3.3]

/-- The treemap as (label, parent, value) triples, zipping the three
parallel arrays of `create_segmentation_chart`. -/
def treemapNodes : List (String × String × ℚ) :=
  treemapLabels.zip (treemapParents.zip treemapValues)

/-- The value the treemap assigns to a node label (0 if absent). -/
def nodeValue (label : String) : ℚ :=
  match treemapNodes.find? (fun nd => nd.1 == label) with
  | some nd => nd.2.2
  | none => 0

/-- Sum of the values of the treemap children of a node label. -/
def childrenValueSum (label : String) : ℚ :=
  ((treemapNodes.filter (fun nd => nd.2.1 == label)).map (fun nd => nd.2.2)).sum

/-- Whether a treemap node label has no children. -/
def isLeafNode (label : String) : Bool :=
  treemapNodes.all (fun nd => nd.2.1 != label)

/-- Sum of the values of the treemap leaf nodes. -/
def leavesValueSum : ℚ :=
  ((treemapNodes.filter (fun nd => isLeafNode nd.1)).map (fun nd => nd.2.2)).sum

/-- Modelled from the spec: ReportDataset construction-time validation
(section 4.1) is absent from src — the tables are built by bare
`pd.DataFrame` calls with no checks.  Following the spec's words, the
constructor asserts unique category labels and non-negative counts and
ACVs, failing fast with `DataIntegrityError`. -/
def validateSegments (rows : List SegmentRow) : Except DataError (List SegmentRow) :=
  if (rows.map SegmentRow.category).Nodup ∧ rows.all (fun r => 0 ≤ r.n && 0 ≤ r.acv)
  then Except.ok rows
  else Except.error DataError.dataIntegrityError

/-- Modelled from the spec: `bucketLabelFor` (section 4.2) — no binning code
exists in src, whose distribution table is pre-binned; the spec documents
the policy as half-open intervals `[low, high)` with an unbounded final
bin. -/
def bucketLabelFor (days : ℕ) : String :=
  if days < 20 then "0-20"
  else if days < 40 then "20-40"
  else if days < 60 then "40-60"
  else if days < 80 then "60-80"
  else if days < 100 then "80-100"
  else "100+"

/-- The "Not Live" subset of the segmentation table. -/
def notLiveSubset : List SegmentRow :=
  segmentation_data.filter (fun r => r.liveStatus == "Not Live")

/-- The share percentage `computeSharePercent` assigns to the "At Risk" row
of the Not Live subset of the segmentation table. -/
def atRiskShare : Option ℤ :=
  match computeSharePercent SegmentRow.n notLiveSubset with
  | Except.ok l => (l.find? (fun p => p.1.category == "At Risk")).map (fun p => p.2)
  | Except.error _ => none

/-- The row-share pairing `computeSharePercent` produces on the Not Live
subset of the segmentation table, written out (total 272; shares
1, 33, 26, 36, 4). -/
def notLiveResult : List (SegmentRow × ℤ) :=
  [ ({ liveStatus := "Not Live", status := "Active", category := "Never Onboarded", n := 2, acv := 0.02 }, 1)
  , ({ liveStatus := "Not Live", status := "Active", category := "On Hold", n := 90, acv := 2.3 }, 33)
  , ({ liveStatus := "Not Live", status := "Active", category := "At Risk", n := 72, acv := 1.3 }, 26)
  , ({ liveStatus := "Not Live", status := "Active", category := "Low Risk", n := 97, acv := 3.3 }, 36)
  , ({ liveStatus := "Not Live", status := "Churned", category := "Not Live-Churned", n := 11, acv := 0.3 }, 4) ]

/-- Claim C10: the at-risk breakdown counts (54 and 18) sum to 72, which
equals the At Risk row's count in the segmentation table and the
`at_risk_customers` KPI value. -/
theorem at_risk_cross_table_consistency :
    (at_risk_breakdown.map AtRiskRow.count).sum = 72 ∧
    (segmentation_data.filter (fun r => r.category == "At Risk")).map SegmentRow.n = [72] ∧
    kpi_data.atRiskCustomers = 72 := by
  decide

/-- Claim C9: `bucketLabelFor` maps day counts to the fixed bins with
half-open intervals and an unbounded final bin: 19 falls in "0-20", 20 in
"20-40", 150 in "100+". -/
theorem bucketLabelFor_boundaries :
    bucketLabelFor 19 = "0-20" ∧ bucketLabelFor 20 = "20-40" ∧
    bucketLabelFor 150 = "100+" := by
  decide

/-- Claim C3: ranking the concrete five-row ERP table descending by the
Average field returns the rows in the order [so, mb, eo, xo, at]. -/
theorem rankDescending_erp_by_average :
    (rankDescending (fun r => r.average) erp_data).map ErpRow.erp =
      ["so (Syspro)", "mb (MYOB)", "eo", "xo (Xero)", "at (Acumatica)"] := by
  decide

/-- Claim C8: the distribution table's pre-computed `Pct` column sums to
within 1 of 100 (it sums to 99), and the `Pct` column `create_acv_chart`
computes for the ACV-band table sums to within 1 of 100 (it sums to
exactly 100). -/
theorem pct_columns_sum_near_100 :
    |(distribution_data.map DistRow.pct).sum - 100| ≤ 1 ∧
    |((create_acv_chart_table acv_onboarding_data).map (fun r => r.pct.getD 0)).sum - 100| ≤ 1 := by
  with_unfolding_all decide

/-- Claim C2 (code-bug evidence): in the treemap hard-coded by
`create_segmentation_chart`, the node "Not Live-Active (N=261)" carries
value 6.98 while its children sum to 6.92 — the very sum its own
segmentation table prescribes — and the leaf values total 8.94 while the
root carries 9.0. -/
theorem treemap_node_sum_mismatch :
    nodeValue "Not Live-Active (N=261)" = 6.98 ∧
    childrenValueSum "Not Live-Active (N=261)" = 6.92 ∧
    nodeValue "Not Live-Active (N=261)" ≠ childrenValueSum "Not Live-Active (N=261)" ∧
    ((segmentation_data.filter (fun r => r.liveStatus == "Not Live" && r.status == "Active")).map SegmentRow.acv).sum = 6.92 ∧
    leavesValueSum = 8.94 ∧
    nodeValue "All Customers" = 9.0 ∧
    leavesValueSum ≠ nodeValue "All Customers" := by
  with_unfolding_all decide

set_option maxRecDepth 8000 in
/-- Claim C1 (counterexample): calling `create_acv_chart` does not leave
every dataset table unchanged — it writes a `Pct` column into the global
ACV-band table, so the dataset after the call differs from the dataset
before it. -/
theorem create_acv_chart_mutates_acv_table :
    (create_acv_chart_state initialDataset).acvOnboarding.map (fun r => r.pct) =
      [some 12, some 22, some 46, some 15, some 5] ∧
    initialDataset.acvOnboarding.map (fun r => r.pct) =
      [none, none, none, none, none] ∧
    (create_acv_chart_state initialDataset).acvOnboarding ≠
      initialDataset.acvOnboarding := by
  have h1 : (create_acv_chart_state initialDataset).acvOnboarding.map (fun r => r.pct) =
      [some 12, some 22, some 46, some 15, some 5] := by
    with_unfolding_all decide
  have h2 : initialDataset.acvOnboarding.map (fun r => r.pct) =
      [none, none, none, none, none] := by
    decide
  refine ⟨h1, h2, fun h => ?_⟩
  rw [h, h2] at h1
  exact absurd h1 (by decide)

/-- Claim C5 (counterexample): the "Not Live" subset of the concrete
segmentation table has counts [2, 90, 72, 97, 11] (total 272), not
[90, 72, 97, 11] (total 270), and `computeSharePercent` on it assigns the
"At Risk" row a share of 26, not 27. -/
theorem notLive_atRisk_share_is_26_not_27 :
    notLiveSubset.map SegmentRow.n = [2, 90, 72, 97, 11] ∧
    (notLiveSubset.map SegmentRow.n).sum = 272 ∧
    atRiskShare = some 26 ∧
    atRiskShare ≠ some 27 := by
  with_unfolding_all decide

theorem acvTotal_create_acv_chart_table (t : List AcvRow) :
    acvTotal (create_acv_chart_table t) = acvTotal t := by
  unfold create_acv_chart_table acvTotal
  rw [List.map_map]
  rfl

theorem create_acv_chart_table_idem (t : List AcvRow) :
    create_acv_chart_table (create_acv_chart_table t) = create_acv_chart_table t := by
  show (create_acv_chart_table t).map
      (fun r => { r with
        pct := some (roundHalfEven (100 * (r.n : ℚ) / (acvTotal (create_acv_chart_table t) : ℚ))) }) =
    create_acv_chart_table t
  rw [acvTotal_create_acv_chart_table]
  show (t.map (fun r => { r with
      pct := some (roundHalfEven (100 * (r.n : ℚ) / (acvTotal t : ℚ))) })).map
      (fun r => { r with
        pct := some (roundHalfEven (100 * (r.n : ℚ) / (acvTotal t : ℚ))) }) =
    create_acv_chart_table t
  rw [List.map_map]
  rfl

/-- Claim C1 (amended): every view-building call other than
`create_acv_chart` leaves every dataset table unchanged; `create_acv_chart`
leaves every table other than the ACV-band table unchanged, and is
idempotent — the second call changes nothing further. -/
theorem chart_calls_frame_amended (d : Dataset) :
    create_kpi_cards_state d = d ∧
    create_segmentation_chart_state d = d ∧
    create_erp_chart_state d = d ∧
    create_cohort_trend_state d = d ∧
    create_distribution_chart_state d = d ∧
    create_non_live_chart_state d = d ∧
    create_at_risk_breakdown_state d = d ∧
    (create_acv_chart_state d).kpi = d.kpi ∧
    (create_acv_chart_state d).segmentation = d.segmentation ∧
    (create_acv_chart_state d).erp = d.erp ∧
    (create_acv_chart_state d).cohort = d.cohort ∧
    (create_acv_chart_state d).distribution = d.distribution ∧
    (create_acv_chart_state d).nonLive = d.nonLive ∧
    (create_acv_chart_state d).atRisk = d.atRisk ∧
    create_acv_chart_state (create_acv_chart_state d) = create_acv_chart_state d := by
  refine ⟨rfl, rfl, rfl, rfl, rfl, rfl, rfl, rfl, rfl, rfl, rfl, rfl, rfl, rfl, ?_⟩
  show ({ d with
      acvOnboarding := create_acv_chart_table (create_acv_chart_table d.acvOnboarding) } : Dataset) =
    { d with acvOnboarding := create_acv_chart_table d.acvOnboarding }
  rw [create_acv_chart_table_idem]

theorem filter_orderedInsert_key_eq {α : Type} (keyf : α → ℚ) (v : ℚ) (x : α)
    (hx : keyf x = v) (l : List α) :
    (List.orderedInsert (fun a b => keyf b ≤ keyf a) x l).filter (fun r => decide (keyf r = v)) =
      x :: l.filter (fun r => decide (keyf r = v)) := by
  induction l with
  | nil => simp [List.orderedInsert, hx]
  | cons y ys ih =>
    by_cases h : keyf y ≤ keyf x
    · simp only [List.orderedInsert, if_pos h]
      simp [List.filter_cons, hx]
    · simp only [List.orderedInsert, if_neg h]
      have hy : ¬ keyf y = v := fun hv => h (le_of_eq (hv.trans hx.symm))
      simp only [List.filter_cons, ih]
      simp [hy]

theorem filter_orderedInsert_key_ne {α : Type} (keyf : α → ℚ) (v : ℚ) (x : α)
    (hx : ¬ keyf x = v) (l : List α) :
    (List.orderedInsert (fun a b => keyf b ≤ keyf a) x l).filter (fun r => decide (keyf r = v)) =
      l.filter (fun r => decide (keyf r = v)) := by
  induction l with
  | nil => simp [List.orderedInsert, hx]
  | cons y ys ih =>
    by_cases h : keyf y ≤ keyf x
    · simp only [List.orderedInsert, if_pos h]
      simp [List.filter_cons, hx]
    · simp only [List.orderedInsert, if_neg h]
      simp only [List.filter_cons, ih]

theorem rankDescending_filter_key {α : Type} (keyf : α → ℚ) (v : ℚ) (rows : List α) :
    (rankDescending keyf rows).filter (fun r => decide (keyf r = v)) =
      rows.filter (fun r => decide (keyf r = v)) := by
  unfold rankDescending
  induction rows with
  | nil => rfl
  | cons x xs ih =>
    simp only [List.insertionSort]
    by_cases hx : keyf x = v
    · rw [filter_orderedInsert_key_eq keyf v x hx, ih]
      simp [List.filter_cons, hx]
    · rw [filter_orderedInsert_key_ne keyf v x hx, ih]
      simp [List.filter_cons, hx]

theorem rankDescending_idem {α : Type} (keyf : α → ℚ) (rows : List α) :
    rankDescending keyf (rankDescending keyf rows) = rankDescending keyf rows := by
  unfold rankDescending
  haveI : IsTotal α (fun a b => keyf b ≤ keyf a) := ⟨fun a b => le_total (keyf b) (keyf a)⟩
  haveI : IsTrans α (fun a b => keyf b ≤ keyf a) := ⟨fun a b c hab hbc => le_trans hbc hab⟩
  exact List.Sorted.insertionSort_eq (List.sorted_insertionSort _ _)

/-- Claim C4: the descending sort is stable — for every input list, the rows
whose sort key equals any given value appear in the output in their original
relative order — and idempotent: sorting twice equals sorting once. -/
theorem rankDescending_stable_and_idempotent (α : Type) (keyf : α → ℚ)
    (rows : List α) (v : ℚ) :
    ((rankDescending keyf rows).filter (fun r => decide (keyf r = v)) =
      rows.filter (fun r => decide (keyf r = v))) ∧
    rankDescending keyf (rankDescending keyf rows) = rankDescending keyf rows :=
  ⟨rankDescending_filter_key keyf v rows, rankDescending_idem keyf rows⟩

theorem roundHalfEven_nearest (q : ℚ) : |q - (roundHalfEven q : ℚ)| ≤ 1/2 := by
  unfold roundHalfEven
  have h0 : ((⌊q⌋ : ℤ) : ℚ) ≤ q := Int.floor_le q
  have h1 : q < ((⌊q⌋ : ℤ) : ℚ) + 1 := Int.lt_floor_add_one q
  split_ifs with hlt hgt heven
  · rw [abs_le]
    constructor <;> linarith
  · rw [abs_le]
    push_cast
    constructor <;> linarith
  · rw [abs_le]
    constructor <;> linarith
  · rw [abs_le]
    push_cast
    constructor <;> linarith

/-- Claim C5 (amended): `computeSharePercent` pairs every input row with a
percentage within 1/2 of 100 times the row's count over the total (a nearest
integer), and on the Not Live subset of the concrete segmentation table
(counts 2, 90, 72, 97, 11, total 272) the "At Risk" row receives share
26. -/
theorem computeSharePercent_nearest_and_atRisk26 {α : Type} (countf : α → ℤ)
    (rows : List α) (l : List (α × ℤ))
    (h : computeSharePercent countf rows = Except.ok l) :
    l.map Prod.fst = rows ∧
    (∀ p ∈ l,
      |100 * (countf p.1 : ℚ) / (((rows.map countf).sum : ℤ) : ℚ) - (p.2 : ℚ)| ≤ 1/2) ∧
    atRiskShare = some 26 := by
  unfold computeSharePercent at h
  by_cases hz : (rows.map countf).sum = 0
  · rw [if_pos hz] at h
    exact Except.noConfusion h
  · rw [if_neg hz] at h
    have hl : l = rows.map (fun r =>
        (r, roundHalfEven (100 * (countf r : ℚ) / (((rows.map countf).sum : ℤ) : ℚ)))) :=
      (Except.ok.inj h).symm
    subst hl
    refine ⟨?_, ?_, ?_⟩
    · rw [List.map_map]
      exact List.map_id rows
    · intro p hp
      obtain ⟨r, hr, rfl⟩ := List.mem_map.mp hp
      exact roundHalfEven_nearest _
    · with_unfolding_all decide

/-- Witness for `computeSharePercent_nearest_and_atRisk26` at the Not Live
subset of the segmentation table. -/
theorem computeSharePercent_nearest_witness :
    notLiveResult.map Prod.fst = notLiveSubset ∧
    (∀ p ∈ notLiveResult,
      |100 * (SegmentRow.n p.1 : ℚ) / (((notLiveSubset.map SegmentRow.n).sum : ℤ) : ℚ) - (p.2 : ℚ)| ≤ 1/2) ∧
    atRiskShare = some 26 :=
  computeSharePercent_nearest_and_atRisk26 SegmentRow.n notLiveSubset notLiveResult
    (by with_unfolding_all rfl)

/-- Claim C6: construction-time validation fails fast — any input holding
two SegmentRow entries with the same category label, or any negative count,
yields `DataIntegrityError` rather than a dataset. -/
theorem validateSegments_rejects_invalid (rows : List SegmentRow)
    (h : ¬ (rows.map SegmentRow.category).Nodup ∨ ∃ r ∈ rows, r.n < 0) :
    validateSegments rows = Except.error DataError.dataIntegrityError := by
  unfold validateSegments
  rw [if_neg]
  rintro ⟨h1, h2⟩
  rcases h with h | ⟨r, hr, hneg⟩
  · exact h h1
  · simp only [List.all_eq_true, Bool.and_eq_true, decide_eq_true_eq] at h2
    exact absurd (h2 r hr).1 (not_le.mpr hneg)

/-- Witness for `validateSegments_rejects_invalid`: two rows sharing the
category label "Dup" are rejected. -/
theorem validateSegments_rejects_witness :
    validateSegments
      [ { liveStatus := "Live", status := "Active", category := "Dup", n := 1, acv := 1 }
      , { liveStatus := "Live", status := "Active", category := "Dup", n := 2, acv := 1 } ] =
      Except.error DataError.dataIntegrityError :=
  validateSegments_rejects_invalid _ (Or.inl (by decide))

/-- Claim C7: `computeSharePercent` fails with `DivideByZeroError` exactly
when the sum of the counts is zero, and returns normally (a list as long as
the input) on every input with a positive total. -/
theorem computeSharePercent_error_iff_zero_total {α : Type} (countf : α → ℤ)
    (rows : List α) :
    (computeSharePercent countf rows = Except.error DataError.divideByZeroError ↔
      (rows.map countf).sum = 0) ∧
    (0 < (rows.map countf).sum →
      ∃ l, computeSharePercent countf rows = Except.ok l ∧ l.length = rows.length) := by
  constructor
  · constructor
    · intro h
      by_contra hz
      unfold computeSharePercent at h
      rw [if_neg hz] at h
      exact Except.noConfusion h
    · intro hz
      unfold computeSharePercent
      rw [if_pos hz]
  · intro hpos
    have hz : ¬ (rows.map countf).sum = 0 := by omega
    refine ⟨rows.map (fun r =>
      (r, roundHalfEven (100 * (countf r : ℚ) / (((rows.map countf).sum : ℤ) : ℚ)))), ?_, by simp⟩
    unfold computeSharePercent
    rw [if_neg hz]

/-- Witness for `computeSharePercent_error_iff_zero_total`: the error case
at counts [0, 0] and the normal return at counts [3, 7]. -/
theorem computeSharePercent_error_witness :
    (computeSharePercent (fun n : ℤ => n) [0, 0] = Except.error DataError.divideByZeroError ↔
      (([(0 : ℤ), 0]).map (fun n : ℤ => n)).sum = 0) ∧
    (∃ l, computeSharePercent (fun n : ℤ => n) [3, 7] = Except.ok l ∧
      l.length = ([(3 : ℤ), 7]).length) :=
  ⟨(computeSharePercent_error_iff_zero_total (fun n : ℤ => n) [0, 0]).1,
   (computeSharePercent_error_iff_zero_total (fun n : ℤ => n) [3, 7]).2 (by decide)⟩
